import Mathlib

/-!
Shallow embedding of the authentication controller of `podlove_backend`
(`src/unnamed/part_002`, an Express + Mongoose auth controller).

The document store (Mongoose `Auth` / `User` collections) is modelled as an
explicit `DB` value threaded through each operation.  External collaborators
are modelled deterministically:
  * `bcrypt.hash(p, 10)` becomes the injective tag `bhash`;
  * `bcrypt.compare(p, stored)` succeeds iff `stored` is the hash of `p`,
    and rejects (like the npm bcrypt library on a non-string hash) when the
    stored password is absent — modelled by the `bcryptCompareError` outcome;
  * `generateOTP()` and `Date.now()` are passed in as parameters;
  * `generateToken(id, secret, "96h")` becomes a deterministic string;
  * `sendEmail` / `sendSMS` are recorded in a `sent` list;
  * injected store faults for `Auth.create` / `User.create` are modelled by
    the boolean parameters `authCreateOk` / `userCreateOk`, so the
    transactional (register) and non-transactional (Google sign-in) create
    paths can be compared.
Times are naturals (milliseconds since the epoch, like `Date.now()`).
-/

/-- HTTP status codes used by the controller (`http-status-codes`). -/
inductive HttpStatus where
  | ok
  | created
  | badRequest
  | unauthorized
  | forbidden
  | notFound
  | conflict
  | internalServerError
deriving DecidableEq, Repr

/-- One `Auth` document (`@models/authModel`): credential / lifecycle record.
`password` is `none` for federated-only identities (Google sign-in stores no
password); OTP fields mirror the Mongoose schema (`""` / `null` when clear). -/
structure Auth where
  id : Nat
  email : Option String
  password : Option String
  googleId : Option String
  isVerified : Bool
  isBlocked : Bool
  verificationOTP : String
  verificationOTPExpiredAt : Option Nat
  recoveryOTP : String
  recoveryOTPExpiredAt : Option Nat
deriving DecidableEq, Repr

/-- One `User` document (`@models/userModel`): profile record, `auth` is the
owning reference to its `Auth`. -/
structure User where
  id : Nat
  auth : Nat
  name : String
  phoneNumber : String
  avatar : Option String
deriving DecidableEq, Repr

/-- The identity store: both collections plus a fresh-id counter standing in
for Mongo object-id assignment. -/
structure DB where
  auths : List Auth
  users : List User
  nextId : Nat
deriving DecidableEq, Repr

/-- `Auth.findOne({ email })`. -/
def DB.findAuthByEmail (db : DB) (email : String) : Option Auth :=
  db.auths.find? (fun a => decide (a.email = some email))

/-- `Auth.findOne({ googleId })`. -/
def DB.findAuthByGoogleId (db : DB) (googleId : String) : Option Auth :=
  db.auths.find? (fun a => decide (a.googleId = some googleId))

/-- `Auth.findById(id)`. -/
def DB.findAuthById (db : DB) (id : Nat) : Option Auth :=
  db.auths.find? (fun a => decide (a.id = id))

/-- `User.findOne({ auth: authId })`. -/
def DB.findUserByAuth (db : DB) (authId : Nat) : Option User :=
  db.users.find? (fun u => decide (u.auth = authId))

/-- `auth.save()`: replace the document with the same id. -/
def DB.saveAuth (db : DB) (a : Auth) : DB :=
  { db with auths := db.auths.map (fun x => if x.id = a.id then a else x) }

/-- Pairing invariant of §3: every `Auth` has a `User` back-referencing it. -/
def DB.pairedB (db : DB) : Bool :=
  db.auths.all (fun a => db.users.any (fun u => decide (u.auth = a.id)))

/-- Model of `bcrypt.hash(p, 10)`: a deterministic injective tag. -/
def bhash (p : String) : String := "bcrypt$" ++ p

/-- Model of `generateToken(id, secret, "96h")` (`@utils/jwt`). -/
def generateToken (id : Nat) (secret : String) : String :=
  secret ++ "." ++ toString id

/-- JSON serialization of a boolean field in a response body. -/
def boolStr (b : Bool) : String := cond b "true" "false"

/-- A notification handed to the sink (`sendEmail` / `sendSMS`). -/
inductive Notification where
  | email (addr : String) (otp : String)
  | sms (phone : String) (otp : String)
deriving DecidableEq, Repr

/-- The uniform `{ success, message, data }` envelope together with the HTTP
status; `data` keeps the JSON object as a flat key/value list. -/
structure HttpResponse where
  status : HttpStatus
  success : Bool
  message : String
  data : List (String × String)
deriving DecidableEq, Repr

/-- An error forwarded to the centralized error middleware via `next(error)`. -/
inductive OpError where
  /-- `next(createError(status, message))`. -/
  | http (status : HttpStatus) (message : String)
  /-- `bcrypt.compare` rejected (stored hash absent: illegal arguments). -/
  | bcryptCompareError
  /-- an injected store-write failure (`Auth.create` / `User.create`). -/
  | dbWriteError
  /-- a thrown runtime error (e.g. `user!.phoneNumber` on a null user). -/
  | runtimeError
deriving DecidableEq, Repr

/-- What one request produced: a JSON response or a forwarded error. -/
inductive OpResult where
  | ok (r : HttpResponse)
  | err (e : OpError)
deriving DecidableEq, Repr

/-- Result of running one controller action: its HTTP-level result, the store
state it leaves behind, and the notifications dispatched along the way. -/
structure OpOutcome where
  result : OpResult
  db : DB
  sent : List Notification
deriving DecidableEq, Repr

/-- `return next(createError(status, message))` leaving the store untouched. -/
def errStep (db : DB) (s : HttpStatus) (m : String) : OpOutcome :=
  { result := .err (.http s m), db := db, sent := [] }

/-- `return res.status(s).json({ success, message, data })` after the store was
left in state `db` and the notifications `sent` were dispatched. -/
def jsonStep (db : DB) (sent : List Notification) (s : HttpStatus)
    (success : Bool) (message : String) (data : List (String × String)) :
    OpOutcome :=
  { result := .ok { status := s, success := success, message := message, data := data },
    db := db, sent := sent }

/-- `register` (part_002 lines 15–101).  `freshOTP` is the value produced by
`generateOTP()`, `now` is `Date.now()`; `authCreateOk` / `userCreateOk`
inject store faults into the two transactional creates. -/
def register (db : DB) (now : Nat) (name email phoneNumber password : String)
    (freshOTP : String) (authCreateOk userCreateOk : Bool) : OpOutcome :=
  let hashedPassword := bhash password
  let verificationOTP := freshOTP
  let verificationOTPExpiredAt := now + 30 * 60 * 1000
  match db.findAuthByEmail email with
  | some auth =>
    if !auth.isVerified then
      -- retry path: re-issue the verification OTP on the existing document
      let auth' := { auth with
        verificationOTP := verificationOTP,
        verificationOTPExpiredAt := some verificationOTPExpiredAt }
      jsonStep (db.saveAuth auth') [.email email verificationOTP] .conflict false
        "Your account already exists. Please verify now."
        [("isVerified", boolStr auth'.isVerified),
         ("verificationOTP", auth'.verificationOTP)]
    else
      jsonStep db [] .conflict false
        "Your account already exists. Please login now."
        [("isVerified", boolStr auth.isVerified)]
  | none =>
    -- transaction: Auth.create then User.create, abort on either failure
    if !authCreateOk then
      { result := .err .dbWriteError, db := db, sent := [] }
    else
      let newAuth : Auth := {
        id := db.nextId, email := some email,
        password := some hashedPassword, googleId := none,
        isVerified := false, isBlocked := false,
        verificationOTP := verificationOTP,
        verificationOTPExpiredAt := some verificationOTPExpiredAt,
        recoveryOTP := "", recoveryOTPExpiredAt := none }
      if !userCreateOk then
        -- abortTransaction rolls the Auth insert back: store unchanged
        { result := .err .dbWriteError, db := db, sent := [] }
      else
        let newUser : User := {
          id := db.nextId + 1, auth := newAuth.id,
          name := name, phoneNumber := phoneNumber, avatar := none }
        jsonStep
          { db with auths := db.auths ++ [newAuth],
                    users := db.users ++ [newUser],
                    nextId := db.nextId + 2 }
          [.email email verificationOTP] .created true "Registration successful"
          [("isVerified", boolStr newAuth.isVerified),
           ("verificationOTP", newAuth.verificationOTP)]

/-- `activate` (part_002 lines 103–148).  `accessSecret` models
`process.env.JWT_ACCESS_SECRET`. -/
def activate (db : DB) (now : Nat) (email verificationOTP : String)
    (accessSecret : Option String) : OpOutcome :=
  if email = "" ∨ verificationOTP = "" then
    errStep db .badRequest "Email and Verification OTP are required."
  else
    match db.findAuthByEmail email with
    | none => errStep db .notFound "User not found"
    | some auth =>
      -- `!auth.verificationOTP || !auth.verificationOTPExpiredAt
      --  || currentTime > auth.verificationOTPExpiredAt`
      let expired : Bool :=
        match auth.verificationOTPExpiredAt with
        | none => true
        | some t => decide (t < now)
      if decide (auth.verificationOTP = "") || expired then
        errStep db .unauthorized "Verification OTP has expired."
      else if verificationOTP ≠ auth.verificationOTP then
        errStep db .unauthorized "Wrong OTP. Please enter the correct one"
      else
        let auth' := { auth with
          verificationOTP := "", verificationOTPExpiredAt := none,
          isVerified := true }
        let db' := db.saveAuth auth'
        match accessSecret with
        | none => errStep db' .internalServerError "Unexpected Server Error"
        | some secret =>
          let accessToken := generateToken auth'.id secret
          match db'.findUserByAuth auth'.id with
          | none => errStep db' .notFound "Associated user not found."
          | some _user =>
            jsonStep db' [] .ok true "Account successfully verified."
              [("accessToken", accessToken)]

/-- `login` (part_002 lines 150–181).  `bcrypt.compare(password, auth.password)`
rejects when the stored password is absent (federated-only identity), which the
code forwards to the error middleware. -/
def login (db : DB) (email password : String)
    (accessSecret refreshSecret : Option String) : OpOutcome :=
  match db.findAuthByEmail email with
  | none => errStep db .notFound "No account found with the given email"
  | some auth =>
    match auth.password with
    | none => { result := .err .bcryptCompareError, db := db, sent := [] }
    | some stored =>
      if stored ≠ bhash password then
        errStep db .unauthorized "Wrong password"
      else if !auth.isVerified then
        errStep db .unauthorized "Verify your email first"
      else if auth.isBlocked then
        errStep db .forbidden "Your account had been blocked. Contact Administrator"
      else
        match accessSecret, refreshSecret with
        | some sa, some sr =>
          jsonStep db [] .ok true "Login successful"
            [("accessToken", generateToken auth.id sa),
             ("refreshToken", generateToken auth.id sr)]
        | _, _ => errStep db .internalServerError "JWT secret is not defined."

/-- Token-minting tail shared by both branches of `signInWithGoogle`
(part_002 lines 194–208): no `isVerified` / `isBlocked` gate. -/
def googleTokenPhase (db : DB) (auth : Auth)
    (accessSecret refreshSecret : Option String) : OpOutcome :=
  match accessSecret, refreshSecret with
  | some sa, some sr =>
    jsonStep db [] .ok true "Login successful"
      [("accessToken", generateToken auth.id sa),
       ("refreshToken", generateToken auth.id sr)]
  | _, _ => errStep db .internalServerError "JWT secret is not defined."

/-- The document written by `Auth.create({googleId, email})` on the Google
sign-in path: no password; the remaining fields take the schema defaults
(unverified, unblocked, no OTPs). -/
def googleNewAuth (id : Nat) (googleId email : String) : Auth :=
  { id := id, email := some email, password := none,
    googleId := some googleId, isVerified := false, isBlocked := false,
    verificationOTP := "", verificationOTPExpiredAt := none,
    recoveryOTP := "", recoveryOTPExpiredAt := none }

/-- The document written by `User.create({auth, name, avatar})` on the Google
sign-in path. -/
def googleNewUser (id authId : Nat) (name avatar : String) : User :=
  { id := id, auth := authId, name := name, phoneNumber := "",
    avatar := some avatar }

/-- `signInWithGoogle` (part_002 lines 183–209).  `Auth.create({googleId, email})`
and `User.create(...)` are two plain writes with no session: `authCreateOk` /
`userCreateOk` inject faults to observe the missing rollback. -/
def signInWithGoogle (db : DB) (googleId name email avatar : String)
    (accessSecret refreshSecret : Option String)
    (authCreateOk userCreateOk : Bool) : OpOutcome :=
  match db.findAuthByGoogleId googleId with
  | some auth => googleTokenPhase db auth accessSecret refreshSecret
  | none =>
    if !authCreateOk then
      { result := .err .dbWriteError, db := db, sent := [] }
    else
      let newAuth : Auth := googleNewAuth db.nextId googleId email
      let db1 : DB := { db with auths := db.auths ++ [newAuth],
                                nextId := db.nextId + 1 }
      if !userCreateOk then
        -- no transaction: the Auth insert survives the User-create failure
        { result := .err .dbWriteError, db := db1, sent := [] }
      else
        let newUser : User := googleNewUser db1.nextId newAuth.id name avatar
        let db2 : DB := { db1 with users := db1.users ++ [newUser],
                                   nextId := db1.nextId + 1 }
        googleTokenPhase db2 newAuth accessSecret refreshSecret

/-- Modelled from the spec: the `Method` enum from `@shared/enums` is not under
`src/`; §4.1 gives its three values {email-activation, phone-activation,
email-recovery}. -/
inductive Method where
  | emailActivation
  | phoneActivation
  | emailRecovery
deriving DecidableEq, Repr

/-- `resendOTP` (part_002 lines 284–347).  `freshOTP` is the `generateOTP()`
value; the phone branch loads the paired `User` before saving and then reads
`user!.phoneNumber`, which throws at runtime if that user is missing. -/
def resendOTP (db : DB) (now : Nat) (method : Method) (email freshOTP : String) :
    OpOutcome :=
  match db.findAuthByEmail email with
  | none => errStep db .notFound "Account not found"
  | some auth =>
    if (method = .emailActivation ∨ method = .phoneActivation) ∧ auth.isVerified then
      jsonStep db [] .conflict true
        "Your account is already verified. Please login."
        [("isVerified", boolStr auth.isVerified)]
    else if method = .emailActivation ∧ auth.isVerified = false then
      let auth' := { auth with
        verificationOTP := freshOTP,
        verificationOTPExpiredAt := some (now + 60 * 1000) }
      jsonStep (db.saveAuth auth') [.email email freshOTP] .ok true
        "OTP resend successful"
        [("isVerified", boolStr auth'.isVerified),
         ("verificationOTP", auth'.verificationOTP)]
    else if method = .phoneActivation ∧ auth.isVerified = false then
      let auth' := { auth with
        verificationOTP := freshOTP,
        verificationOTPExpiredAt := some (now + 60 * 1000) }
      match db.findUserByAuth auth.id with
      | none =>
        -- `user!.phoneNumber` dereferences a null user after `auth.save()`
        { result := .err .runtimeError, db := db.saveAuth auth', sent := [] }
      | some user =>
        jsonStep (db.saveAuth auth') [.sms user.phoneNumber freshOTP] .ok true
          "OTP resend successful"
          [("isVerified", boolStr auth'.isVerified),
           ("verificationOTP", auth'.verificationOTP)]
    else if method = .emailRecovery then
      let auth' := { auth with
        recoveryOTP := freshOTP,
        recoveryOTPExpiredAt := some (now + 60 * 1000) }
      jsonStep (db.saveAuth auth') [.email email freshOTP] .ok true
        "OTP resend successful"
        [("recoveryOTP", auth'.recoveryOTP)]
    else
      -- unreachable for the three-method enum: every case is covered above
      { result := .err .runtimeError, db := db, sent := [] }

/-- `changePassword` (part_002 lines 349–365).  `authId` comes from the decoded
token (`req.user.authId`); `confirmPassword` is destructured from the body but
never used by the code. -/
def changePassword (db : DB) (authId : Nat)
    (password newPassword confirmPassword : String) : OpOutcome :=
  match db.findAuthById authId with
  | none => errStep db .notFound "User Not Found"
  | some auth =>
    match auth.password with
    | none => { result := .err .bcryptCompareError, db := db, sent := [] }
    | some stored =>
      if stored ≠ bhash password then
        errStep db .unauthorized "Wrong Password"
      else
        let auth' := { auth with password := some (bhash newPassword) }
        jsonStep (db.saveAuth auth') [] .ok true
          "Passowrd changed successfully" []

/-- `resetPassword` (part_002 lines 263–277).  `userEmail` is the
recovery-authorized identity (`req.user.email`). -/
def resetPassword (db : DB) (userEmail password confirmPassword : String) :
    OpOutcome :=
  match db.findAuthByEmail userEmail with
  | none => errStep db .notFound "User Not Found"
  | some auth =>
    if password ≠ confirmPassword then
      errStep db .badRequest "Passwords don\x27t match"
    else
      let auth' := { auth with password := some (bhash password) }
      jsonStep (db.saveAuth auth') [] .ok true "Password reset successful" []

/-- C1: for a fresh email (no existing Auth), register creates Auth and User
inside one atomic transaction: every injected failure of either create leaves
the store exactly as it was (so no Auth exists without its User), and when both
writes succeed the response is Created and the new Auth has a paired User;
the pairing invariant is preserved. -/
theorem register_fresh_email_transactional
    (db : DB) (now : Nat) (name email phone password otp : String)
    (hfresh : db.findAuthByEmail email = none) :
    (register db now name email phone password otp false false).db = db
    ∧ (register db now name email phone password otp false false).result = .err .dbWriteError
    ∧ (register db now name email phone password otp false true).db = db
    ∧ (register db now name email phone password otp false true).result = .err .dbWriteError
    ∧ (register db now name email phone password otp true false).db = db
    ∧ (register db now name email phone password otp true false).result = .err .dbWriteError
    ∧ (register db now name email phone password otp true true).result =
        .ok { status := .created, success := true,
              message := "Registration successful",
              data := [("isVerified", "false"), ("verificationOTP", otp)] }
    ∧ (∃ a ∈ (register db now name email phone password otp true true).db.auths,
         a.email = some email
         ∧ ∃ u ∈ (register db now name email phone password otp true true).db.users,
             u.auth = a.id)
    ∧ (db.pairedB = true →
        (register db now name email phone password otp true true).db.pairedB = true) := by
  refine ⟨?_, ?_, ?_, ?_, ?_, ?_, ?_, ?_, ?_⟩ <;>
    simp [register, hfresh, jsonStep, boolStr, DB.pairedB, List.all_append,
      List.any_append, List.all_eq_true]
  · exact ⟨_, Or.inr rfl, rfl, _, Or.inr rfl, rfl⟩
  · intro hp a ha
    exact Or.inl (hp a ha)

theorem register_fresh_email_transactional_witness :
    (DB.mk [] [] 0).findAuthByEmail "a@x.com" = none
    ∧ (register (DB.mk [] [] 0) 0 "n" "a@x.com" "ph" "pw" "1234" true true).result =
        .ok { status := .created, success := true,
              message := "Registration successful",
              data := [("isVerified", "false"), ("verificationOTP", "1234")] } :=
  ⟨rfl, (register_fresh_email_transactional (DB.mk [] [] 0) 0 "n" "a@x.com"
      "ph" "pw" "1234" rfl).2.2.2.2.2.2.1⟩

/-- C2: an Auth holding a correct, unexpired verification OTP is activated
exactly once: the first call flips `isVerified` from false to true and clears
the OTP and its expiry, and a second call with the very same OTP value fails
Unauthorized (the OTP was consumed). -/
theorem activate_otp_single_use
    (a : Auth) (us : List User) (u : User) (n now texp : Nat)
    (email otp secret : String)
    (hemail : a.email = some email) (hne : email ≠ "") (hone : otp ≠ "")
    (hstored : a.verificationOTP = otp)
    (hexp : a.verificationOTPExpiredAt = some texp) (hnow : ¬ texp < now)
    (hver : a.isVerified = false)
    (hu : us.find? (fun u0 => decide (u0.auth = a.id)) = some u) :
    (activate (DB.mk [a] us n) now email otp (some secret)).result =
        .ok { status := .ok, success := true,
              message := "Account successfully verified.",
              data := [("accessToken", generateToken a.id secret)] }
    ∧ (activate (DB.mk [a] us n) now email otp (some secret)).db =
        DB.mk [{ a with verificationOTP := "", verificationOTPExpiredAt := none, isVerified := true }] us n
    ∧ (activate ((activate (DB.mk [a] us n) now email otp (some secret)).db)
         now email otp (some secret)).result =
        .err (.http .unauthorized "Verification OTP has expired.") := by
  refine ⟨?_, ?_, ?_⟩ <;>
    simp [activate, DB.findAuthByEmail, DB.saveAuth, DB.findUserByAuth,
      jsonStep, errStep, List.find?, hemail, hne, hone, hstored, hexp, hnow, hu]

/-- A sample unverified password account used to instantiate the theorems. -/
def authA : Auth :=
  { id := 1, email := some "a@x", password := some (bhash "pw"),
    googleId := none, isVerified := false, isBlocked := false,
    verificationOTP := "777", verificationOTPExpiredAt := some 100,
    recoveryOTP := "", recoveryOTPExpiredAt := none }

/-- The profile paired with `authA`. -/
def userA : User :=
  { id := 2, auth := 1, name := "nm", phoneNumber := "017", avatar := none }

theorem activate_otp_single_use_witness :
    (activate (DB.mk [authA] [userA] 3) 50 "a@x" "777" (some "sk")).result =
        .ok { status := .ok, success := true,
              message := "Account successfully verified.",
              data := [("accessToken", generateToken authA.id "sk")] }
    ∧ (activate (DB.mk [authA] [userA] 3) 50 "a@x" "777" (some "sk")).db =
        DB.mk [{ authA with verificationOTP := "", verificationOTPExpiredAt := none, isVerified := true }] [userA] 3
    ∧ (activate ((activate (DB.mk [authA] [userA] 3) 50 "a@x" "777" (some "sk")).db)
         50 "a@x" "777" (some "sk")).result =
        .err (.http .unauthorized "Verification OTP has expired.") :=
  activate_otp_single_use authA [userA] userA 3 50 100 "a@x" "777" "sk"
    rfl (by decide) (by decide) rfl rfl (by decide) rfl rfl

/-- C3: when the stored verification OTP is empty, its expiry is absent, or the
expiry lies before the current time, activate fails Unauthorized with the
expiry message and leaves the store untouched — even when the supplied OTP
value equals the stored one, so the expiry check is decided before the value
comparison. -/
theorem activate_expired_regardless_of_match
    (a : Auth) (us : List User) (n now texp : Nat) (email otp : String)
    (secret : Option String)
    (hemail : a.email = some email) (hne : email ≠ "") (hone : otp ≠ "")
    (hlt : texp < now) :
    activate (DB.mk [{ a with verificationOTP := "" }] us n) now email otp secret =
      errStep (DB.mk [{ a with verificationOTP := "" }] us n)
        .unauthorized "Verification OTP has expired."
    ∧ activate (DB.mk [{ a with verificationOTP := otp, verificationOTPExpiredAt := none }] us n) now email otp secret =
      errStep (DB.mk [{ a with verificationOTP := otp, verificationOTPExpiredAt := none }] us n)
        .unauthorized "Verification OTP has expired."
    ∧ activate (DB.mk [{ a with verificationOTP := otp, verificationOTPExpiredAt := some texp }] us n) now email otp secret =
      errStep (DB.mk [{ a with verificationOTP := otp, verificationOTPExpiredAt := some texp }] us n)
        .unauthorized "Verification OTP has expired." := by
  refine ⟨?_, ?_, ?_⟩ <;>
    simp [activate, DB.findAuthByEmail, errStep, List.find?, hemail, hne, hone, hlt]

theorem activate_expired_regardless_of_match_witness :
    activate (DB.mk [{ authA with verificationOTP := "" }] [userA] 3) 200 "a@x" "777" (some "sk") =
      errStep (DB.mk [{ authA with verificationOTP := "" }] [userA] 3)
        .unauthorized "Verification OTP has expired."
    ∧ activate (DB.mk [{ authA with verificationOTP := "777", verificationOTPExpiredAt := none }] [userA] 3) 200 "a@x" "777" (some "sk") =
      errStep (DB.mk [{ authA with verificationOTP := "777", verificationOTPExpiredAt := none }] [userA] 3)
        .unauthorized "Verification OTP has expired."
    ∧ activate (DB.mk [{ authA with verificationOTP := "777", verificationOTPExpiredAt := some 100 }] [userA] 3) 200 "a@x" "777" (some "sk") =
      errStep (DB.mk [{ authA with verificationOTP := "777", verificationOTPExpiredAt := some 100 }] [userA] 3)
        .unauthorized "Verification OTP has expired." :=
  activate_expired_regardless_of_match authA [userA] 3 200 100 "a@x" "777"
    (some "sk") rfl (by decide) (by decide) (by decide)

/-- C4: login fails NotFound with no Auth; Unauthorized for a wrong password
even on unverified or blocked accounts (any flag combination `v`, `b`);
only once the password matches does it fail Unauthorized for an unverified
account, and Forbidden for a verified-but-blocked one. -/
theorem login_error_order
    (a : Auth) (us : List User) (n : Nat) (email pw h0 : String)
    (sa sr : Option String) (v b : Bool)
    (hemail : a.email = some email)
    (hwrong : h0 ≠ bhash pw) :
    login (DB.mk [] us n) email pw sa sr =
      errStep (DB.mk [] us n) .notFound "No account found with the given email"
    ∧ login (DB.mk [{ a with password := some h0, isVerified := v, isBlocked := b }] us n) email pw sa sr =
      errStep (DB.mk [{ a with password := some h0, isVerified := v, isBlocked := b }] us n)
        .unauthorized "Wrong password"
    ∧ login (DB.mk [{ a with password := some (bhash pw), isVerified := false, isBlocked := b }] us n) email pw sa sr =
      errStep (DB.mk [{ a with password := some (bhash pw), isVerified := false, isBlocked := b }] us n)
        .unauthorized "Verify your email first"
    ∧ login (DB.mk [{ a with password := some (bhash pw), isVerified := true, isBlocked := true }] us n) email pw sa sr =
      errStep (DB.mk [{ a with password := some (bhash pw), isVerified := true, isBlocked := true }] us n)
        .forbidden "Your account had been blocked. Contact Administrator" := by
  refine ⟨?_, ?_, ?_, ?_⟩ <;>
    simp [login, DB.findAuthByEmail, errStep, List.find?, hemail, hwrong]

theorem login_error_order_witness :
    login (DB.mk [] [userA] 3) "a@x" "pw" (some "sk") (some "sk2") =
      errStep (DB.mk [] [userA] 3) .notFound "No account found with the given email"
    ∧ login (DB.mk [{ authA with password := some (bhash "zz"), isVerified := true, isBlocked := true }] [userA] 3) "a@x" "pw" (some "sk") (some "sk2") =
      errStep (DB.mk [{ authA with password := some (bhash "zz"), isVerified := true, isBlocked := true }] [userA] 3)
        .unauthorized "Wrong password"
    ∧ login (DB.mk [{ authA with password := some (bhash "pw"), isVerified := false, isBlocked := true }] [userA] 3) "a@x" "pw" (some "sk") (some "sk2") =
      errStep (DB.mk [{ authA with password := some (bhash "pw"), isVerified := false, isBlocked := true }] [userA] 3)
        .unauthorized "Verify your email first"
    ∧ login (DB.mk [{ authA with password := some (bhash "pw"), isVerified := true, isBlocked := true }] [userA] 3) "a@x" "pw" (some "sk") (some "sk2") =
      errStep (DB.mk [{ authA with password := some (bhash "pw"), isVerified := true, isBlocked := true }] [userA] 3)
        .forbidden "Your account had been blocked. Contact Administrator" :=
  login_error_order authA [userA] 3 "a@x" "pw" (bhash "zz") (some "sk")
    (some "sk2") true true rfl (by decide)

/-- C5: Google sign-in finds the Auth by `googleId`; when found — whatever its
`isVerified` / `isBlocked` flags — it mints both tokens with no gate and
leaves the store unchanged; when absent it writes an Auth with no password and
a paired User as two independent writes and still mints both tokens; a failure
of the second write leaves the first one behind (non-transactional). -/
theorem signInWithGoogle_paths
    (a : Auth) (us : List User) (n : Nat) (db : DB)
    (gid nm em av sa sr : String) (aOk uOk : Bool)
    (hgid : a.googleId = some gid)
    (hnone : db.findAuthByGoogleId gid = none) :
    signInWithGoogle (DB.mk [a] us n) gid nm em av (some sa) (some sr) aOk uOk =
      jsonStep (DB.mk [a] us n) [] .ok true "Login successful"
        [("accessToken", generateToken a.id sa),
         ("refreshToken", generateToken a.id sr)]
    ∧ signInWithGoogle db gid nm em av (some sa) (some sr) true true =
      jsonStep (DB.mk (db.auths ++ [googleNewAuth db.nextId gid em])
          (db.users ++ [googleNewUser (db.nextId + 1) db.nextId nm av])
          (db.nextId + 2)) [] .ok true "Login successful"
        [("accessToken", generateToken db.nextId sa),
         ("refreshToken", generateToken db.nextId sr)]
    ∧ signInWithGoogle db gid nm em av (some sa) (some sr) true false =
      { result := .err .dbWriteError,
        db := DB.mk (db.auths ++ [googleNewAuth db.nextId gid em]) db.users (db.nextId + 1),
        sent := [] }
    ∧ (googleNewAuth db.nextId gid em).password = none := by
  simp only [DB.findAuthByGoogleId] at hnone
  refine ⟨?_, ?_, ?_, ?_⟩ <;>
    simp [signInWithGoogle, googleTokenPhase, googleNewAuth, googleNewUser,
      DB.findAuthByGoogleId, jsonStep, List.find?, hgid, hnone]

/-- A sample federated, unverified and blocked account. -/
def authG : Auth := { authA with googleId := some "g7", isBlocked := true }

theorem signInWithGoogle_paths_witness :
    signInWithGoogle (DB.mk [authG] [userA] 3) "g7" "nm" "e@x" "av" (some "sk") (some "sk2") true true =
      jsonStep (DB.mk [authG] [userA] 3) [] .ok true "Login successful"
        [("accessToken", generateToken authG.id "sk"),
         ("refreshToken", generateToken authG.id "sk2")]
    ∧ signInWithGoogle (DB.mk [] [] 0) "g7" "nm" "e@x" "av" (some "sk") (some "sk2") true true =
      jsonStep (DB.mk [googleNewAuth 0 "g7" "e@x"] [googleNewUser 1 0 "nm" "av"] 2) [] .ok true "Login successful"
        [("accessToken", generateToken 0 "sk"),
         ("refreshToken", generateToken 0 "sk2")]
    ∧ signInWithGoogle (DB.mk [] [] 0) "g7" "nm" "e@x" "av" (some "sk") (some "sk2") true false =
      { result := .err .dbWriteError,
        db := DB.mk [googleNewAuth 0 "g7" "e@x"] [] 1, sent := [] }
    ∧ (googleNewAuth 0 "g7" "e@x").password = none :=
  signInWithGoogle_paths authG [userA] 3 (DB.mk [] [] 0) "g7" "nm" "e@x" "av"
    "sk" "sk2" true true rfl rfl

/-- C6: resendOTP on an activation method with an already-verified account
returns a Conflict-status response whose success flag is true, mutating
nothing and sending nothing; otherwise it stores a fresh OTP of the matching
kind expiring in 60 seconds and dispatches it by email, or by SMS to the
paired User's phone number for phone activation, or by email for recovery. -/
theorem resendOTP_paths
    (a : Auth) (us : List User) (u : User) (n now : Nat) (email otp : String)
    (hemail : a.email = some email)
    (hu : us.find? (fun u0 => decide (u0.auth = a.id)) = some u) :
    resendOTP (DB.mk [{ a with isVerified := true }] us n) now .emailActivation email otp =
      jsonStep (DB.mk [{ a with isVerified := true }] us n) [] .conflict true
        "Your account is already verified. Please login." [("isVerified", "true")]
    ∧ resendOTP (DB.mk [{ a with isVerified := true }] us n) now .phoneActivation email otp =
      jsonStep (DB.mk [{ a with isVerified := true }] us n) [] .conflict true
        "Your account is already verified. Please login." [("isVerified", "true")]
    ∧ resendOTP (DB.mk [{ a with isVerified := false }] us n) now .emailActivation email otp =
      jsonStep (DB.mk [{ a with isVerified := false, verificationOTP := otp, verificationOTPExpiredAt := some (now + 60 * 1000) }] us n)
        [.email email otp] .ok true "OTP resend successful"
        [("isVerified", "false"), ("verificationOTP", otp)]
    ∧ resendOTP (DB.mk [{ a with isVerified := false }] us n) now .phoneActivation email otp =
      jsonStep (DB.mk [{ a with isVerified := false, verificationOTP := otp, verificationOTPExpiredAt := some (now + 60 * 1000) }] us n)
        [.sms u.phoneNumber otp] .ok true "OTP resend successful"
        [("isVerified", "false"), ("verificationOTP", otp)]
    ∧ resendOTP (DB.mk [a] us n) now .emailRecovery email otp =
      jsonStep (DB.mk [{ a with recoveryOTP := otp, recoveryOTPExpiredAt := some (now + 60 * 1000) }] us n)
        [.email email otp] .ok true "OTP resend successful"
        [("recoveryOTP", otp)] := by
  refine ⟨?_, ?_, ?_, ?_, ?_⟩ <;>
    simp [resendOTP, DB.findAuthByEmail, DB.findUserByAuth, DB.saveAuth,
      jsonStep, boolStr, List.find?, hemail, hu]

theorem resendOTP_paths_witness :
    resendOTP (DB.mk [{ authA with isVerified := true }] [userA] 3) 50 .emailActivation "a@x" "999" =
      jsonStep (DB.mk [{ authA with isVerified := true }] [userA] 3) [] .conflict true
        "Your account is already verified. Please login." [("isVerified", "true")]
    ∧ resendOTP (DB.mk [{ authA with isVerified := true }] [userA] 3) 50 .phoneActivation "a@x" "999" =
      jsonStep (DB.mk [{ authA with isVerified := true }] [userA] 3) [] .conflict true
        "Your account is already verified. Please login." [("isVerified", "true")]
    ∧ resendOTP (DB.mk [{ authA with isVerified := false }] [userA] 3) 50 .emailActivation "a@x" "999" =
      jsonStep (DB.mk [{ authA with isVerified := false, verificationOTP := "999", verificationOTPExpiredAt := some (50 + 60 * 1000) }] [userA] 3)
        [.email "a@x" "999"] .ok true "OTP resend successful"
        [("isVerified", "false"), ("verificationOTP", "999")]
    ∧ resendOTP (DB.mk [{ authA with isVerified := false }] [userA] 3) 50 .phoneActivation "a@x" "999" =
      jsonStep (DB.mk [{ authA with isVerified := false, verificationOTP := "999", verificationOTPExpiredAt := some (50 + 60 * 1000) }] [userA] 3)
        [.sms userA.phoneNumber "999"] .ok true "OTP resend successful"
        [("isVerified", "false"), ("verificationOTP", "999")]
    ∧ resendOTP (DB.mk [authA] [userA] 3) 50 .emailRecovery "a@x" "999" =
      jsonStep (DB.mk [{ authA with recoveryOTP := "999", recoveryOTPExpiredAt := some (50 + 60 * 1000) }] [userA] 3)
        [.email "a@x" "999"] .ok true "OTP resend successful"
        [("recoveryOTP", "999")] :=
  resendOTP_paths authA [userA] userA 3 50 "a@x" "999" rfl rfl

/-- C7: changePassword with a wrong old password returns Unauthorized and
leaves the store (hence the stored hash) unchanged; with the right old
password it rehashes and persists, and its outcome never depends on the
confirm-password field. -/
theorem changePassword_wrong_old_frame
    (a : Auth) (us : List User) (n : Nat) (stored oldPw newPw c c2 : String)
    (hwrong : stored ≠ bhash oldPw) :
    changePassword (DB.mk [{ a with password := some stored }] us n) a.id oldPw newPw c =
      errStep (DB.mk [{ a with password := some stored }] us n)
        .unauthorized "Wrong Password"
    ∧ changePassword (DB.mk [{ a with password := some (bhash oldPw) }] us n) a.id oldPw newPw c =
      jsonStep (DB.mk [{ a with password := some (bhash newPw) }] us n) [] .ok true
        "Passowrd changed successfully" []
    ∧ changePassword (DB.mk [a] us n) a.id oldPw newPw c =
      changePassword (DB.mk [a] us n) a.id oldPw newPw c2 := by
  refine ⟨?_, ?_, rfl⟩ <;>
    simp [changePassword, DB.findAuthById, DB.saveAuth, jsonStep, errStep,
      List.find?, hwrong]

theorem changePassword_wrong_old_frame_witness :
    changePassword (DB.mk [{ authA with password := some (bhash "zz") }] [userA] 3) authA.id "pw" "np" "cf" =
      errStep (DB.mk [{ authA with password := some (bhash "zz") }] [userA] 3)
        .unauthorized "Wrong Password"
    ∧ changePassword (DB.mk [{ authA with password := some (bhash "pw") }] [userA] 3) authA.id "pw" "np" "cf" =
      jsonStep (DB.mk [{ authA with password := some (bhash "np") }] [userA] 3) [] .ok true
        "Passowrd changed successfully" []
    ∧ changePassword (DB.mk [authA] [userA] 3) authA.id "pw" "np" "cf" =
      changePassword (DB.mk [authA] [userA] 3) authA.id "pw" "np" "other" :=
  changePassword_wrong_old_frame authA [userA] 3 (bhash "zz") "pw" "np" "cf"
    "other" (by decide)

/-- C8: resetPassword with disagreeing password / confirmPassword fields fails
BadRequest and leaves the store (hence the stored hash) unchanged; with
agreeing fields the password is rehashed and persisted. -/
theorem resetPassword_confirm_check
    (a : Auth) (us : List User) (n : Nat) (email pw cpw : String)
    (hemail : a.email = some email)
    (hne : pw ≠ cpw) :
    resetPassword (DB.mk [a] us n) email pw cpw =
      errStep (DB.mk [a] us n) .badRequest "Passwords don\x27t match"
    ∧ resetPassword (DB.mk [a] us n) email pw pw =
      jsonStep (DB.mk [{ a with password := some (bhash pw) }] us n) [] .ok true
        "Password reset successful" [] := by
  refine ⟨?_, ?_⟩ <;>
    simp [resetPassword, DB.findAuthByEmail, DB.saveAuth, jsonStep, errStep,
      List.find?, hemail, hne]

theorem resetPassword_confirm_check_witness :
    resetPassword (DB.mk [authA] [userA] 3) "a@x" "new" "other" =
      errStep (DB.mk [authA] [userA] 3) .badRequest "Passwords don\x27t match"
    ∧ resetPassword (DB.mk [authA] [userA] 3) "a@x" "new" "new" =
      jsonStep (DB.mk [{ authA with password := some (bhash "new") }] [userA] 3) [] .ok true
        "Password reset successful" [] :=
  resetPassword_confirm_check authA [userA] 3 "a@x" "new" "other" rfl (by decide)

/-- C9: on the register retry path (an unverified Auth already exists for the
email) the code only rewrites `verificationOTP` and its expiry on the existing
document: the response is the Conflict re-issue, the saved document keeps
every other field — including the stored password hash, whatever password the
retry supplied — and no Auth or User record is added. -/
theorem register_retry_frame
    (db : DB) (a : Auth) (now : Nat) (name email phone password otp : String)
    (aOk uOk : Bool)
    (hfind : db.findAuthByEmail email = some a)
    (hunv : a.isVerified = false) :
    register db now name email phone password otp aOk uOk =
      jsonStep (db.saveAuth { a with verificationOTP := otp, verificationOTPExpiredAt := some (now + 30 * 60 * 1000) })
        [.email email otp] .conflict false
        "Your account already exists. Please verify now."
        [("isVerified", "false"), ("verificationOTP", otp)]
    ∧ (db.saveAuth { a with verificationOTP := otp, verificationOTPExpiredAt := some (now + 30 * 60 * 1000) }).auths.length = db.auths.length
    ∧ (db.saveAuth { a with verificationOTP := otp, verificationOTPExpiredAt := some (now + 30 * 60 * 1000) }).users = db.users
    ∧ ({ a with verificationOTP := otp, verificationOTPExpiredAt := some (now + 30 * 60 * 1000) } : Auth).password = a.password
    ∧ ({ a with verificationOTP := otp, verificationOTPExpiredAt := some (now + 30 * 60 * 1000) } : Auth).email = a.email
    ∧ ({ a with verificationOTP := otp, verificationOTPExpiredAt := some (now + 30 * 60 * 1000) } : Auth).googleId = a.googleId
    ∧ ({ a with verificationOTP := otp, verificationOTPExpiredAt := some (now + 30 * 60 * 1000) } : Auth).isVerified = a.isVerified
    ∧ ({ a with verificationOTP := otp, verificationOTPExpiredAt := some (now + 30 * 60 * 1000) } : Auth).isBlocked = a.isBlocked
    ∧ ({ a with verificationOTP := otp, verificationOTPExpiredAt := some (now + 30 * 60 * 1000) } : Auth).recoveryOTP = a.recoveryOTP
    ∧ ({ a with verificationOTP := otp, verificationOTPExpiredAt := some (now + 30 * 60 * 1000) } : Auth).recoveryOTPExpiredAt = a.recoveryOTPExpiredAt
    ∧ ({ a with verificationOTP := otp, verificationOTPExpiredAt := some (now + 30 * 60 * 1000) } : Auth).id = a.id := by
  refine ⟨?_, ?_, rfl, rfl, rfl, rfl, rfl, rfl, rfl, rfl, rfl⟩
  · simp [register, jsonStep, boolStr, hfind, hunv]
  · simp [DB.saveAuth]

theorem register_retry_frame_witness :
    register (DB.mk [authA] [userA] 3) 50 "nm" "a@x" "017" "otherPw" "999" true true =
      jsonStep ((DB.mk [authA] [userA] 3).saveAuth { authA with verificationOTP := "999", verificationOTPExpiredAt := some (50 + 30 * 60 * 1000) })
        [.email "a@x" "999"] .conflict false
        "Your account already exists. Please verify now."
        [("isVerified", "false"), ("verificationOTP", "999")]
    ∧ ((DB.mk [authA] [userA] 3).saveAuth { authA with verificationOTP := "999", verificationOTPExpiredAt := some (50 + 30 * 60 * 1000) }).auths.length = (DB.mk [authA] [userA] 3).auths.length
    ∧ ((DB.mk [authA] [userA] 3).saveAuth { authA with verificationOTP := "999", verificationOTPExpiredAt := some (50 + 30 * 60 * 1000) }).users = (DB.mk [authA] [userA] 3).users
    ∧ ({ authA with verificationOTP := "999", verificationOTPExpiredAt := some (50 + 30 * 60 * 1000) } : Auth).password = authA.password
    ∧ ({ authA with verificationOTP := "999", verificationOTPExpiredAt := some (50 + 30 * 60 * 1000) } : Auth).email = authA.email
    ∧ ({ authA with verificationOTP := "999", verificationOTPExpiredAt := some (50 + 30 * 60 * 1000) } : Auth).googleId = authA.googleId
    ∧ ({ authA with verificationOTP := "999", verificationOTPExpiredAt := some (50 + 30 * 60 * 1000) } : Auth).isVerified = authA.isVerified
    ∧ ({ authA with verificationOTP := "999", verificationOTPExpiredAt := some (50 + 30 * 60 * 1000) } : Auth).isBlocked = authA.isBlocked
    ∧ ({ authA with verificationOTP := "999", verificationOTPExpiredAt := some (50 + 30 * 60 * 1000) } : Auth).recoveryOTP = authA.recoveryOTP
    ∧ ({ authA with verificationOTP := "999", verificationOTPExpiredAt := some (50 + 30 * 60 * 1000) } : Auth).recoveryOTPExpiredAt = authA.recoveryOTPExpiredAt
    ∧ ({ authA with verificationOTP := "999", verificationOTPExpiredAt := some (50 + 30 * 60 * 1000) } : Auth).id = authA.id :=
  register_retry_frame (DB.mk [authA] [userA] 3) authA 50 "nm" "a@x" "017"
    "otherPw" "999" true true rfl rfl

/-- C10: logging in with the email of a federated-only identity (an Auth that
signInWithGoogle just created, holding no password) neither returns NotFound
nor Unauthorized: the Auth is found, and `bcrypt.compare` against the absent
hash rejects, so the operation forwards a non-HTTP error to the generic error
handler (a server error), leaving the store unchanged. -/
theorem login_federated_identity_server_error
    (db : DB) (gid nm em av pw sa sr : String) (sa2 sr2 : Option String)
    (hgid : db.findAuthByGoogleId gid = none)
    (hemail : db.findAuthByEmail em = none) :
    (signInWithGoogle db gid nm em av (some sa) (some sr) true true).db.findAuthByEmail em =
      some (googleNewAuth db.nextId gid em)
    ∧ login (signInWithGoogle db gid nm em av (some sa) (some sr) true true).db em pw sa2 sr2 =
      { result := .err .bcryptCompareError,
        db := (signInWithGoogle db gid nm em av (some sa) (some sr) true true).db,
        sent := [] } := by
  simp only [DB.findAuthByGoogleId, DB.findAuthByEmail] at hgid hemail
  constructor
  · simp [signInWithGoogle, googleTokenPhase, DB.findAuthByEmail,
      DB.findAuthByGoogleId, jsonStep, List.find?_append, List.find?, hgid,
      hemail, googleNewAuth, googleNewUser]
  · simp [signInWithGoogle, googleTokenPhase, login, DB.findAuthByEmail,
      DB.findAuthByGoogleId, jsonStep, List.find?_append, List.find?, hgid,
      hemail, googleNewAuth, googleNewUser]

theorem login_federated_identity_server_error_witness :
    (signInWithGoogle (DB.mk [] [] 0) "g7" "nm" "e@x" "av" (some "sk") (some "sk2") true true).db.findAuthByEmail "e@x" =
      some (googleNewAuth 0 "g7" "e@x")
    ∧ login (signInWithGoogle (DB.mk [] [] 0) "g7" "nm" "e@x" "av" (some "sk") (some "sk2") true true).db "e@x" "pw" (some "sk") (some "sk2") =
      { result := .err .bcryptCompareError,
        db := (signInWithGoogle (DB.mk [] [] 0) "g7" "nm" "e@x" "av" (some "sk") (some "sk2") true true).db,
        sent := [] } :=
  login_federated_identity_server_error (DB.mk [] [] 0) "g7" "nm" "e@x" "av"
    "pw" "sk" "sk2" (some "sk") (some "sk2") rfl rfl
